import Mathlib

/-!
Verification development for the playwright-sniff monitoring library.

The definitions below are a shallow embedding of `src/utils.ts`,
`src/types.ts` and `src/monitor.ts`.  Pure helpers become Lean
functions; the stateful `PlaywrightSniff` class becomes explicit state
passing over a `SniffState` record.  Wall-clock reads (`Date.now()`,
`new Date().toLocaleString()`) become explicit parameters, I/O (file
writes, screenshots, logging) becomes explicit data in the operations'
results, and a thrown JS exception becomes an `Option String` component
of the result.
-/

namespace PwSniff

/-! ## Decimal rendering (model of JS integer-to-string and `toFixed(2)`) -/

/-- Decimal digits of a natural number, most significant first,
fuel-structured so that it reduces by `decide`/`rfl`.  Models the JS
rendering `${n}` of a nonnegative integer. -/
def natDigitsAux : Nat → Nat → List Char
  | 0, _ => []
  | fuel+1, n =>
    if n < 10 then [Nat.digitChar n]
    else natDigitsAux fuel (n / 10) ++ [Nat.digitChar (n % 10)]

/-- Decimal digits of `n`, e.g. `natDigits 503 = ['5','0','3']`. -/
def natDigits (n : Nat) : List Char := natDigitsAux (n+1) n

/-- Exactly-two-digit rendering of `k < 100`, used for the fraction part
of `toFixed(2)`. -/
def pad2 (k : Nat) : List Char := [Nat.digitChar (k / 10), Nat.digitChar (k % 10)]

/-- Character list of `q.toFixed(2)` for `0 ≤ q`: ECMAScript `toFixed`
picks the integer `n` with `n/100` closest to `q`, larger `n` on ties,
which is `⌊100q + 1/2⌋`. -/
def toFixed2NonnegData (q : ℚ) : List Char :=
  natDigits ((⌊q * 100 + 1/2⌋).toNat / 100) ++ ('.' :: pad2 ((⌊q * 100 + 1/2⌋).toNat % 100))

/-- Character list of `q.toFixed(2)`: a negative number renders as the
sign followed by the rendering of its magnitude. -/
def toFixed2Data (q : ℚ) : List Char :=
  if q < 0 then '-' :: toFixed2NonnegData (-q) else toFixed2NonnegData q

/-- Model of JS `q.toFixed(2)`. -/
def toFixed2 (q : ℚ) : String := ⟨toFixed2Data q⟩

/-- Embedding of `calculateAverage` (src/utils.ts): `null` on the empty
list, otherwise the mean rendered via `toFixed(2)`. -/
def calculateAverage (values : List Int) : Option String :=
  if values.length = 0 then none
  else some (toFixed2 ((values.sum : ℚ) / (values.length : ℚ)))

/-! ## ANSI stripping (model of `cleanErrorMessage`, src/utils.ts) -/

/-- The escape character `\u001b`. -/
def escChar : Char := Char.ofNat 27

/-- A character matched by the regex class `[0-9;]`. -/
def isAnsiParam (c : Char) : Bool := c.isDigit || c = ';'

/-- Splits off the maximal leading run of `[0-9;]` characters. -/
def munchParams : List Char → List Char × List Char
  | [] => ([], [])
  | c :: cs =>
    if isAnsiParam c then
      ((munchParams cs).1.cons c, (munchParams cs).2)
    else ([], c :: cs)

/-- Tries to match the tail of the regex `\u001b\[[0-9;]*m` (everything
after the escape character) at the head of `cs`; on success returns the
rest of the input after the match. -/
def matchAnsi (cs : List Char) : Option (List Char) :=
  match cs with
  | '[' :: cs2 =>
    match (munchParams cs2).2 with
    | 'm' :: r2 => some r2
    | _ => none
  | _ => none

/-- Global replacement of `/\u001b\[[0-9;]*m/g` by the empty string,
fuel-structured (the wrapper passes the input length, which always
suffices because every step consumes at least one character). -/
def stripAnsiFuel : Nat → List Char → List Char
  | 0, l => l
  | _, [] => []
  | fuel+1, c :: cs =>
    if c = escChar then
      match matchAnsi cs with
      | some r2 => stripAnsiFuel fuel r2
      | none => c :: stripAnsiFuel fuel cs
    else c :: stripAnsiFuel fuel cs

/-- All ANSI color sequences removed from `l`. -/
def stripAnsi (l : List Char) : List Char := stripAnsiFuel l.length l

/-- Embedding of `cleanErrorMessage` (src/utils.ts).  The source reads

```
const stripped = message.replace(/\u001b\[[0-9;]*m/g, '');
return stripped
// Take only the first line
return stripped.split('\n')[0];
```

so the first `return` wins and the `split('\n')[0]` line is dead code:
the function strips ANSI color codes but does NOT truncate to the first
line.  The embedding is faithful to this behaviour. -/
def cleanErrorMessage (raw : String) : String := ⟨stripAnsi raw.data⟩

/-! ## Data model (src/types.ts) -/

/-- The `type` field of a `Failure`. -/
inductive FailureType where
  | console
  | request
  | custom
deriving DecidableEq

/-- Embedding of `ActionTiming` (src/types.ts). -/
structure ActionTiming where
  label : String
  duration : Int
  slow : Bool
  failed : Bool
deriving DecidableEq

/-- Embedding of `ShowStopper` (src/types.ts). -/
structure ShowStopper where
  label : String
  criticalError : String
  screenshot : Option String
deriving DecidableEq

/-- Embedding of `Failure` (src/types.ts). -/
structure Failure where
  error : String
  type : FailureType
  requestUrl : Option String
  requestStatus : Option Int
  requestMethod : Option String
deriving DecidableEq

/-- Embedding of `RequestDetails` (src/types.ts). -/
structure RequestDetails where
  url : String
  duration : Int
  method : String
deriving DecidableEq

/-- Embedding of `SniffReport` (src/types.ts). -/
structure SniffReport where
  timestamp : String
  passed : Bool
  showStoppers : List ShowStopper
  slowThreshold : Int
  pageLoadSteps : List ActionTiming
  avgLoadTime : Option String
  avgRequestTime : Option String
  slowRequests : List RequestDetails
  failures : List Failure
  testName : String
deriving DecidableEq

/-- Embedding of `TestReport` (src/types.ts). -/
structure TestReport where
  reportData : List SniffReport
deriving DecidableEq

/-- The mutable state of a `PlaywrightSniff` instance
(src/monitor.ts, fields of the class), together with the two
per-instance options the monitoring logic reads
(`options.slowThreshold`, `options.captureScreenshots`). -/
structure SniffState where
  failures : List Failure
  showStoppers : List ShowStopper
  requestStartTimes : List (String × Int)
  requestDurations : List Int
  detailedRequestDurations : List RequestDetails
  timings : List ActionTiming
  isMonitoring : Bool
  slowThreshold : Int
  captureScreenshots : Bool
  testName : String
deriving DecidableEq

/-- State right after the constructor ran: all collections empty,
`isMonitoring = false`. -/
def initState (slowThreshold : Int) (captureScreenshots : Bool) (testName : String) :
    SniffState :=
  ⟨[], [], [], [], [], [], false, slowThreshold, captureScreenshots, testName⟩

/-! ## The stable descending sort used by `getResults`

`this.detailedRequestDurations.filter(...).sort((a, b) => b.duration - a.duration)`
— ECMAScript 2019 requires `Array.prototype.sort` to be stable, so with
this comparator it is a stable sort descending by `duration`, embedded
here as a stable insertion sort. -/

/-- Stable descending insertion: `x` (the earlier element) goes in front
of the first element whose duration is ≤ its own. -/
def insertDesc (x : RequestDetails) : List RequestDetails → List RequestDetails
  | [] => [x]
  | y :: ys => if y.duration ≤ x.duration then x :: y :: ys else y :: insertDesc x ys

/-- Stable sort by `duration`, descending. -/
def sortDesc : List RequestDetails → List RequestDetails
  | [] => []
  | x :: xs => insertDesc x (sortDesc xs)

/-! ## Operations (src/monitor.ts) -/

/-- Embedding of `getResults`.  `now` is the value of
`new Date().toLocaleString()` at the instant of the call. -/
def getResults (st : SniffState) (now : String) : TestReport :=
  { reportData := [{
      timestamp := now,
      passed := st.showStoppers.length == 0,
      showStoppers := st.showStoppers,
      slowThreshold := st.slowThreshold,
      pageLoadSteps := st.timings,
      avgLoadTime := calculateAverage ((st.timings.filter (fun t => !t.failed)).map (·.duration)),
      avgRequestTime := calculateAverage st.requestDurations,
      slowRequests := sortDesc (st.detailedRequestDurations.filter (fun r => st.slowThreshold < r.duration)),
      failures := st.failures,
      testName := st.testName }] }

/-- Embedding of `start`.  The `Bool` is true when the
"Monitoring already started" warning was logged (early return). -/
def start (st : SniffState) : SniffState × Bool :=
  if st.isMonitoring then (st, true)
  else
    ({ st with
        failures := []
        showStoppers := []
        requestStartTimes := []
        requestDurations := []
        detailedRequestDurations := []
        timings := []
        isMonitoring := true },
     false)

/-- Result of `stop`: the new state, whether the "Monitoring not
started" warning was logged, the report snapshot handed to the report
sink (`saveReport`/`generateHTMLReport`), and the error thrown to the
caller, if any. -/
structure StopResult where
  state : SniffState
  warned : Bool
  persisted : Option TestReport
  raised : Option String
deriving DecidableEq

/-- Embedding of `stop`.  When running it saves the report (snapshot of
the state before the transition), sets `isMonitoring := false`, and then
throws exactly when `hasShowStoppers()`. -/
def stop (st : SniffState) (now : String) : StopResult :=
  if st.isMonitoring = false then ⟨st, true, none, none⟩
  else
    ⟨{ st with isMonitoring := false }, false, some (getResults st now),
     if st.showStoppers.length > 0 then some "Test failed due to showstoppers" else none⟩

/-- Outcome of the wrapped async action passed to `measureAction`:
either it resolved, or it rejected with an error whose (raw) message is
given. -/
inductive Outcome where
  | ok
  | err (msg : String)
deriving DecidableEq

/-- Result of `measureAction`: the new state and the exception the call
itself propagates to its caller, if any. -/
structure MeasureResult where
  state : SniffState
  raised : Option String
deriving DecidableEq

/-- Embedding of `measureAction`.  `elapsed` is `Date.now() - start` for
the action run.  When not monitoring the action is executed directly and
its exception (if any) propagates.  When monitoring, a success appends
one timing (slow iff over threshold) and a failure appends one
zero-duration failed timing plus one showstopper with the cleaned error
message; the `catch` never rethrows. -/
def measureAction (st : SniffState) (label : String) (outcome : Outcome) (elapsed : Int) :
    MeasureResult :=
  if st.isMonitoring = false then
    { state := st,
      raised := match outcome with | .ok => none | .err e => some e }
  else
    match outcome with
    | .ok =>
      { state := { st with
          timings := st.timings ++ [⟨label, elapsed, decide (st.slowThreshold < elapsed), false⟩] },
        raised := none }
    | .err e =>
      { state := { st with
          timings := st.timings ++ [⟨label, 0, false, true⟩],
          showStoppers := st.showStoppers ++ [⟨label, cleanErrorMessage e, none⟩] },
        raised := none }

/-- Embedding of `addFailure`; the failure record (built in the source
from `error`, `type` and the metadata spread) is passed already
assembled.  The `Bool` is true when the "Monitoring not started" warning
was logged (early return). -/
def addFailure (st : SniffState) (f : Failure) : SniffState × Bool :=
  if st.isMonitoring = false then (st, true)
  else ({ st with failures := st.failures ++ [f] }, false)

/-- Embedding of `addShowStopper`.  `shot` is the path returned by
`captureErrorScreenshot` (`none` when the capture failed); it is only
consulted when `captureScreenshots` is on.  The `Bool` is true when the
"Monitoring not started" warning was logged (early return). -/
def addShowStopper (st : SniffState) (label criticalError : String) (shot : Option String) :
    SniffState × Bool :=
  if st.isMonitoring = false then (st, true)
  else
    ({ st with showStoppers :=
        st.showStoppers ++ [⟨label, criticalError, if st.captureScreenshots then shot else none⟩] },
     false)

/-! ## Event-bridge handlers (src/monitor.ts, `setupSniffingListeners`)

The five `page.on` callbacks registered by `start`.  Note that none of
the first four checks `isMonitoring`; the `response` handler goes
through `addShowStopper`, which does. -/

/-- Handler for `page.on('console')`: an error-severity message appends
a console failure, anything else is ignored. -/
def onConsole (st : SniffState) (msgType text : String) : SniffState :=
  if msgType = "error" then
    { st with failures := st.failures ++ [⟨text, .console, none, none, none⟩] }
  else st

/-- Handler for `page.on('requestfailed')`: appends a request failure
with `errorText || 'Unknown error'` and `status || null` (so a status of
`0` is recorded as null, JS truthiness). -/
def onRequestFailed (st : SniffState) (url method : String) (status : Option Int)
    (errorText : Option String) : SniffState :=
  { st with failures := st.failures ++
      [⟨errorText.getD "Unknown error", .request, some url,
        (match status with | some s => if s == 0 then none else some s | none => none),
        some method⟩] }

/-- Association-list update modelling `this.requestStartTimes[url] = t`. -/
def setStartTime (m : List (String × Int)) (k : String) (v : Int) : List (String × Int) :=
  if m.any (fun p => p.1 == k) then m.map (fun p => if p.1 == k then (k, v) else p)
  else m ++ [(k, v)]

/-- Lookup modelling `this.requestStartTimes[url]` (`none` = undefined). -/
def getStartTime (m : List (String × Int)) (k : String) : Option Int :=
  (m.find? (fun p => p.1 == k)).map (·.2)

/-- Handler for `page.on('request')`: records the start instant for the
URL (later start overwrites an earlier one). -/
def onRequest (st : SniffState) (url : String) (now : Int) : SniffState :=
  { st with requestStartTimes := setStartTime st.requestStartTimes url now }

/-- Handler for `page.on('requestfinished')`: when a truthy start time
exists for the URL, appends the duration to both duration collections
(`if (this.requestStartTimes[url])` — a recorded start of 0 is falsy and
is skipped, like an absent one). -/
def onRequestFinished (st : SniffState) (url method : String) (now : Int) : SniffState :=
  match getStartTime st.requestStartTimes url with
  | some t =>
    if t == 0 then st
    else
      { st with
          requestDurations := st.requestDurations ++ [now - t]
          detailedRequestDurations := st.detailedRequestDurations ++ [⟨url, now - t, method⟩] }
  | none => st

/-- The template literal `` `Status: ${status} - Body: ${body.substring(0, 100)}...` ``
built by the `response` handler. -/
def responseError (status : Nat) (body : String) : String :=
  ⟨"Status: ".data ++ natDigits status ++ " - Body: ".data ++ body.data.take 100 ++ "...".data⟩

/-- Handler for `page.on('response')`: a status in `[500, 600)`
escalates to a showstopper via `addShowStopper` with label
`METHOD - URL` and message `Status: <code> - Body: <first 100 chars>...`.
`bodyRead` is the result of `await response.text()` (`none` when the
read threw, in which case the `'[body unreadable]'` placeholder is
used); `shot` as in `addShowStopper`.  Other statuses do nothing. -/
def onResponse (st : SniffState) (status : Nat) (url method : String)
    (bodyRead : Option String) (shot : Option String) : SniffState :=
  if 500 ≤ status ∧ status < 600 then
    (addShowStopper st (method ++ " - " ++ url)
      (responseError status (bodyRead.getD "[body unreadable]")) shot).1
  else st

/-! ## Helper lemmas about the start-time map -/

theorem find?_overwrite (k : String) (v : Int) :
    ∀ m : List (String × Int), m.any (fun p => p.1 == k) = true →
      (m.map (fun p => if p.1 == k then (k, v) else p)).find? (fun p => p.1 == k) =
        some (k, v) := by
  intro m
  induction m with
  | nil => intro h; simp at h
  | cons q m ih =>
    intro h
    by_cases hq : (q.1 == k) = true
    · have hfq : (if q.1 == k then (k, v) else q) = (k, v) := by simp [hq]
      rw [List.map_cons, hfq, List.find?_cons]
      simp
    · have hq2 : (q.1 == k) = false := by simpa using hq
      have hfq : (if q.1 == k then (k, v) else q) = q := by simp [hq2]
      have hm : m.any (fun p => p.1 == k) = true := by
        rcases List.any_eq_true.mp h with ⟨p, hp, hpk⟩
        rcases List.mem_cons.mp hp with rfl | hp2
        · exact absurd hpk hq
        · exact List.any_eq_true.mpr ⟨p, hp2, hpk⟩
      rw [List.map_cons, hfq, List.find?_cons]
      simp only [hq2]
      exact ih hm

theorem find?_append_single (k : String) (v : Int) :
    ∀ m : List (String × Int), m.any (fun p => p.1 == k) = false →
      (m ++ [(k, v)]).find? (fun p => p.1 == k) = some (k, v) := by
  intro m
  induction m with
  | nil => intro _; simp [List.find?_cons]
  | cons q m ih =>
    intro h
    simp only [List.any_cons, Bool.or_eq_false_iff] at h
    simp [List.find?_cons, h.1, ih h.2]

/-- Writing a start time for `k` makes the subsequent lookup of `k`
return it, whether or not `k` was present before. -/
theorem getStartTime_setStartTime (m : List (String × Int)) (k : String) (v : Int) :
    getStartTime (setStartTime m k v) k = some v := by
  unfold getStartTime setStartTime
  by_cases hany : m.any (fun p => p.1 == k) = true
  · rw [if_pos hany, find?_overwrite k v m hany]
    rfl
  · rw [if_neg hany, find?_append_single k v m (Bool.not_eq_true _ ▸ hany)]
    rfl

/-! ## Helper lemmas about the stable descending sort -/

theorem insertDesc_perm (x : RequestDetails) (l : List RequestDetails) :
    (insertDesc x l).Perm (x :: l) := by
  induction l with
  | nil => simp [insertDesc]
  | cons y ys ih =>
    simp only [insertDesc]
    split
    · exact .refl _
    · exact (ih.cons y).trans (List.Perm.swap x y ys)

theorem sortDesc_perm (l : List RequestDetails) : (sortDesc l).Perm l := by
  induction l with
  | nil => simp [sortDesc]
  | cons x xs ih => exact (insertDesc_perm x (sortDesc xs)).trans (ih.cons x)

theorem insertDesc_pairwise (x : RequestDetails) (l : List RequestDetails)
    (h : l.Pairwise (fun a b => b.duration ≤ a.duration)) :
    (insertDesc x l).Pairwise (fun a b => b.duration ≤ a.duration) := by
  induction l with
  | nil => simp [insertDesc]
  | cons y ys ih =>
    rw [List.pairwise_cons] at h
    obtain ⟨hy, hys⟩ := h
    simp only [insertDesc]
    split
    · rename_i hle
      refine List.pairwise_cons.mpr ⟨?_, List.pairwise_cons.mpr ⟨hy, hys⟩⟩
      intro z hz
      rcases List.mem_cons.mp hz with rfl | hz2
      · exact hle
      · exact le_trans (hy z hz2) hle
    · rename_i hgt
      push_neg at hgt
      refine List.pairwise_cons.mpr ⟨?_, ih hys⟩
      intro z hz
      rcases List.mem_cons.mp ((insertDesc_perm x ys).mem_iff.mp hz) with rfl | hz2
      · exact le_of_lt hgt
      · exact hy z hz2

theorem sortDesc_pairwise (l : List RequestDetails) :
    (sortDesc l).Pairwise (fun a b => b.duration ≤ a.duration) := by
  induction l with
  | nil => simp [sortDesc]
  | cons x xs ih => exact insertDesc_pairwise x (sortDesc xs) ih

theorem insertDesc_filter (x : RequestDetails) (l : List RequestDetails) (d : Int) :
    (insertDesc x l).filter (fun a => a.duration == d) =
      (x :: l).filter (fun a => a.duration == d) := by
  induction l with
  | nil => rfl
  | cons y ys ih =>
    simp only [insertDesc]
    split
    · rfl
    · rename_i hgt
      push_neg at hgt
      by_cases hx : x.duration = d
      · have hy : y.duration ≠ d := by omega
        simp [List.filter_cons, hx, hy, ih]
      · simp [List.filter_cons, hx, ih]

theorem sortDesc_filter (l : List RequestDetails) (d : Int) :
    (sortDesc l).filter (fun a => a.duration == d) = l.filter (fun a => a.duration == d) := by
  induction l with
  | nil => rfl
  | cons x xs ih =>
    simp only [sortDesc]
    rw [insertDesc_filter, List.filter_cons, List.filter_cons, ih]

/-! ## Helper lemmas about decimal rendering -/

theorem digitChar_isDigit {n : Nat} (h : n < 10) : (Nat.digitChar n).isDigit = true := by
  interval_cases n <;> decide

theorem isDigit_of_mem_natDigitsAux (fuel : Nat) :
    ∀ (n : Nat), ∀ c ∈ natDigitsAux fuel n, c.isDigit = true := by
  induction fuel with
  | zero => intro n c hc; simp [natDigitsAux] at hc
  | succ fuel ih =>
    intro n c hc
    simp only [natDigitsAux] at hc
    split at hc
    · rename_i h
      rw [List.mem_singleton] at hc
      subst hc
      exact digitChar_isDigit h
    · rcases List.mem_append.mp hc with h1 | h2
      · exact ih _ c h1
      · rw [List.mem_singleton] at h2
        subst h2
        exact digitChar_isDigit (Nat.mod_lt _ (by omega))

theorem isDigit_of_mem_natDigits (n : Nat) : ∀ c ∈ natDigits n, c.isDigit = true :=
  isDigit_of_mem_natDigitsAux (n+1) n

theorem dot_not_mem_natDigits (n : Nat) : '.' ∉ natDigits n := by
  intro h
  have := isDigit_of_mem_natDigits n '.' h
  simp [Char.isDigit] at this

/-- The `toFixed(2)` rendering always ends in a dot followed by exactly
two decimal digits, and contains no other dot. -/
theorem toFixed2Data_shape (q : ℚ) :
    ∃ p d1 d2, toFixed2Data q = p ++ '.' :: [d1, d2] ∧ d1.isDigit = true ∧
      d2.isDigit = true ∧ '.' ∉ p := by
  have core : ∀ r : ℚ, ∃ p d1 d2, toFixed2NonnegData r = p ++ '.' :: [d1, d2] ∧
      d1.isDigit = true ∧ d2.isDigit = true ∧ '.' ∉ p := by
    intro r
    refine ⟨natDigits ((⌊r * 100 + 1/2⌋).toNat / 100),
      Nat.digitChar ((⌊r * 100 + 1/2⌋).toNat % 100 / 10),
      Nat.digitChar ((⌊r * 100 + 1/2⌋).toNat % 100 % 10), rfl,
      digitChar_isDigit ?_, digitChar_isDigit ?_, dot_not_mem_natDigits _⟩
    · have := Nat.mod_lt ((⌊r * 100 + 1/2⌋).toNat) (show 0 < 100 by omega)
      omega
    · exact Nat.mod_lt _ (by omega)
  unfold toFixed2Data
  split
  · obtain ⟨p, d1, d2, heq, h1, h2, hp⟩ := core (-q)
    refine ⟨'-' :: p, d1, d2, by rw [heq]; rfl, h1, h2, ?_⟩
    intro hmem
    rcases List.mem_cons.mp hmem with h | h
    · exact absurd h (by decide)
    · exact hp h
  · exact core q

/-! ## Claim theorems -/

/-- A running session with empty collections, as produced by
`start` on a fresh instance (used by witnesses). -/
def runState : SniffState := ⟨[], [], [], [], [], [], true, 2000, true, "example"⟩

/-- C1: for every session state the report produced by `getResults` has
`passed` equal to `showStoppers.length == 0`: the single report entry is
passed exactly when no showstopper has been recorded, regardless of
failures, timings, or lifecycle state. -/
theorem C1_getResults_passed (st : SniffState) (now : String) :
    (getResults st now).reportData.map (fun r => r.passed) = [st.showStoppers.length == 0] ∧
    (∀ r ∈ (getResults st now).reportData, (r.passed = true ↔ st.showStoppers.length = 0)) := by
  refine ⟨rfl, ?_⟩
  intro r hr
  simp only [getResults, List.mem_singleton] at hr
  subst hr
  simp

/-- C1 witness: the property instantiated at a concrete session. -/
theorem C1_getResults_passed_witness :
    ((⟨"now", true, [], 2000, [], none, none, [], [], "example"⟩ : SniffReport).passed = true ↔
      runState.showStoppers.length = 0) :=
  (C1_getResults_passed runState "now").2
    ⟨"now", true, [], 2000, [], none, none, [], [], "example"⟩ (by decide)

/-- C2: for an action that rejects, `measureAction` on a running session
appends exactly one `ActionTiming` with `duration = 0`, `slow = false`,
`failed = true`, appends exactly one `ShowStopper` whose `criticalError`
is the cleaned error message, and itself raises nothing. -/
theorem C2_measureAction_err (st : SniffState) (label e : String) (elapsed : Int)
    (h : st.isMonitoring = true) :
    (measureAction st label (.err e) elapsed).state.timings =
      st.timings ++ [⟨label, 0, false, true⟩] ∧
    (measureAction st label (.err e) elapsed).state.showStoppers =
      st.showStoppers ++ [⟨label, cleanErrorMessage e, none⟩] ∧
    (measureAction st label (.err e) elapsed).raised = none := by
  simp [measureAction, h]

/-- C2 witness: a throwing action on a concrete running session. -/
theorem C2_measureAction_err_witness :
    (measureAction runState "step" (.err "boom") 5).state.timings =
      runState.timings ++ [⟨"step", 0, false, true⟩] ∧
    (measureAction runState "step" (.err "boom") 5).state.showStoppers =
      runState.showStoppers ++ [⟨"step", cleanErrorMessage "boom", none⟩] ∧
    (measureAction runState "step" (.err "boom") 5).raised = none :=
  C2_measureAction_err runState "step" "boom" 5 rfl

/-- C3: `stop` on a non-running session warns and changes nothing
(no report persisted, nothing raised); `stop` on a running session
persists the final report, transitions to stopped, raises exactly when a
showstopper was recorded, and a second `stop` is a warned no-op that
persists nothing again. -/
theorem C3_stop (st : SniffState) (now now2 : String) :
    (st.isMonitoring = false → stop st now = ⟨st, true, none, none⟩) ∧
    (st.isMonitoring = true →
      (stop st now).state = { st with isMonitoring := false } ∧
      (stop st now).warned = false ∧
      (stop st now).persisted = some (getResults st now) ∧
      ((stop st now).raised.isSome = true ↔ st.showStoppers ≠ []) ∧
      stop (stop st now).state now2 = ⟨(stop st now).state, true, none, none⟩) := by
  constructor
  · intro h
    simp [stop, h]
  · intro h
    refine ⟨by simp [stop, h], by simp [stop, h], by simp [stop, h], ?_, by simp [stop, h]⟩
    rcases hs : st.showStoppers with _ | ⟨s, ss⟩ <;> simp [stop, h, hs]

/-- C3 witness: the property instantiated at a concrete running
session. -/
theorem C3_stop_witness :
    (stop runState "t1").state = { runState with isMonitoring := false } ∧
    (stop runState "t1").warned = false ∧
    (stop runState "t1").persisted = some (getResults runState "t1") ∧
    ((stop runState "t1").raised.isSome = true ↔ runState.showStoppers ≠ []) ∧
    stop (stop runState "t1").state "t2" = ⟨(stop runState "t1").state, true, none, none⟩ :=
  (C3_stop runState "t1" "t2").2 rfl

/-- C4 counterexample: the claim says every mutating operation is a
no-op when the session is not running, including the console event
handler — but `setupSniffingListeners`'s `console` callback never checks
`isMonitoring`, so on a non-running session it still appends a failure
(listeners stay attached after `stop`, so this state is reachable). -/
theorem C4_counterexample :
    (onConsole (initState 2000 true "t") "error" "boom").failures ≠
      (initState 2000 true "t").failures := by
  decide

/-- A stopped session that still holds a recorded (truthy) request
start time, as left behind by a `request` event followed by `stop`
(used by the C4 witness). -/
def stoppedWithStart : SniffState :=
  ⟨[], [], [("https://x.example/api", 5)], [], [], [], false, 2000, true, "t"⟩

/-- C4 amended: when the session is not running, `addFailure`,
`addShowStopper`, `measureAction` and the showstopper path of the
`response` handler leave the state unchanged (at most warning), but all
four remaining event-bridge handlers mutate regardless of lifecycle
state: `console` and `requestfailed` append failures, `request` records
the start instant, and `requestfinished` appends to both
request-duration collections whenever a truthy start was recorded. -/
theorem C4_guarded_mutations (st : SniffState) (h : st.isMonitoring = false) :
    (∀ f, addFailure st f = (st, true)) ∧
    (∀ label ce shot, addShowStopper st label ce shot = (st, true)) ∧
    (∀ label outcome elapsed, (measureAction st label outcome elapsed).state = st) ∧
    (∀ status url method bodyRead shot, onResponse st status url method bodyRead shot = st) ∧
    (∀ text, (onConsole st "error" text).failures =
      st.failures ++ [⟨text, .console, none, none, none⟩]) ∧
    (∀ url method status errorText,
      (onRequestFailed st url method status errorText).failures.length =
        st.failures.length + 1) ∧
    (∀ url t, getStartTime (onRequest st url t).requestStartTimes url = some t) ∧
    (∀ url method t now2, getStartTime st.requestStartTimes url = some t → t ≠ 0 →
      (onRequestFinished st url method now2).requestDurations =
        st.requestDurations ++ [now2 - t] ∧
      (onRequestFinished st url method now2).detailedRequestDurations =
        st.detailedRequestDurations ++ [⟨url, now2 - t, method⟩]) := by
  refine ⟨fun f => by simp [addFailure, h],
    fun label ce shot => by simp [addShowStopper, h],
    fun label outcome elapsed => by simp [measureAction, h],
    fun status url method bodyRead shot => ?_,
    fun text => by simp [onConsole],
    fun url method status errorText => by simp [onRequestFailed],
    fun url t => getStartTime_setStartTime st.requestStartTimes url t,
    fun url method t now2 hget ht => ?_⟩
  · unfold onResponse
    split
    · simp [addShowStopper, h]
    · rfl
  · have ht2 : (t == 0) = false := by simpa using ht
    unfold onRequestFinished
    rw [hget]
    simp [ht2]

/-- C4 witness: the amended property instantiated at concrete stopped
sessions — the guarded operations leave the state alone while every
unguarded handler observably mutates it. -/
theorem C4_guarded_mutations_witness :
    addFailure (initState 2000 true "t") ⟨"e", .custom, none, none, none⟩ =
      (initState 2000 true "t", true) ∧
    addShowStopper (initState 2000 true "t") "lbl" "err" none =
      (initState 2000 true "t", true) ∧
    (measureAction (initState 2000 true "t") "lbl" .ok 3).state = initState 2000 true "t" ∧
    onResponse (initState 2000 true "t") 503 "u" "GET" none none = initState 2000 true "t" ∧
    (onConsole (initState 2000 true "t") "error" "boom").failures =
      (initState 2000 true "t").failures ++ [⟨"boom", .console, none, none, none⟩] ∧
    (onRequestFailed (initState 2000 true "t") "u" "GET" none none).failures.length =
      (initState 2000 true "t").failures.length + 1 ∧
    getStartTime (onRequest (initState 2000 true "t") "u" 7).requestStartTimes "u" = some 7 ∧
    (onRequestFinished stoppedWithStart "https://x.example/api" "GET" 12).requestDurations =
      stoppedWithStart.requestDurations ++ [12 - 5] ∧
    (onRequestFinished stoppedWithStart "https://x.example/api" "GET" 12).detailedRequestDurations =
      stoppedWithStart.detailedRequestDurations ++ [⟨"https://x.example/api", 12 - 5, "GET"⟩] := by
  have h1 := C4_guarded_mutations (initState 2000 true "t") rfl
  have h2 := C4_guarded_mutations stoppedWithStart rfl
  have h3 := h2.2.2.2.2.2.2.2 "https://x.example/api" "GET" 5 12 (by decide) (by decide)
  exact ⟨h1.1 _, h1.2.1 _ _ _, h1.2.2.1 _ _ _, h1.2.2.2.1 _ _ _ _ _, h1.2.2.2.2.1 _,
    h1.2.2.2.2.2.1 _ _ _ _, h1.2.2.2.2.2.2.1 _ _, h3.1, h3.2⟩

/-- C5: a successful action of duration `D` is recorded with
`failed = false` and `slow` exactly when `D` exceeds the threshold;
a failed action is recorded with `duration = 0`, `slow = false`,
`failed = true`; in both cases the one appended timing satisfies
`slow == (duration > slowThreshold && !failed)`. -/
theorem C5_measureAction_slow (st : SniffState) (label e : String) (elapsed : Int)
    (h : st.isMonitoring = true) :
    ((measureAction st label .ok elapsed).state.timings =
      st.timings ++ [⟨label, elapsed, decide (st.slowThreshold < elapsed), false⟩]) ∧
    ((measureAction st label (.err e) elapsed).state.timings =
      st.timings ++ [⟨label, 0, false, true⟩]) ∧
    (∀ t : ActionTiming, (measureAction st label .ok elapsed).state.timings = st.timings ++ [t] →
      (t.slow = true ↔ (st.slowThreshold < t.duration ∧ t.failed = false))) ∧
    (∀ t : ActionTiming,
      (measureAction st label (.err e) elapsed).state.timings = st.timings ++ [t] →
      (t.slow = true ↔ (st.slowThreshold < t.duration ∧ t.failed = false))) := by
  refine ⟨by simp [measureAction, h], by simp [measureAction, h], ?_, ?_⟩
  · intro t ht
    simp only [measureAction, h] at ht
    have h3 : t = ⟨label, elapsed, decide (st.slowThreshold < elapsed), false⟩ := by
      simpa using (List.append_cancel_left ht).symm
    subst h3
    simp
  · intro t ht
    simp only [measureAction, h] at ht
    have h3 : t = ⟨label, 0, false, true⟩ := by
      simpa using (List.append_cancel_left ht).symm
    subst h3
    simp

/-- C5 witness: a slow success and a failure on a concrete running
session. -/
theorem C5_measureAction_slow_witness :
    ((measureAction runState "step" .ok 3000).state.timings =
      runState.timings ++ [⟨"step", 3000, decide (runState.slowThreshold < 3000), false⟩]) ∧
    ((measureAction runState "step" (.err "boom") 3000).state.timings =
      runState.timings ++ [⟨"step", 0, false, true⟩]) ∧
    (∀ t : ActionTiming,
      (measureAction runState "step" .ok 3000).state.timings = runState.timings ++ [t] →
      (t.slow = true ↔ (runState.slowThreshold < t.duration ∧ t.failed = false))) ∧
    (∀ t : ActionTiming,
      (measureAction runState "step" (.err "boom") 3000).state.timings =
        runState.timings ++ [t] →
      (t.slow = true ↔ (runState.slowThreshold < t.duration ∧ t.failed = false))) :=
  C5_measureAction_slow runState "step" "boom" 3000 rfl

/-- C6: the claim says `cleanErrorMessage` returns a single-line string.
The source strips ANSI color sequences but then returns immediately —
the `return stripped.split('\n')[0]` line is dead code after the bare
`return stripped` above it (and the source's own comment says "Take only
the first line").  Evaluating the embedded code at a multi-line input:
the newline survives, while ANSI stripping does work. -/
theorem C6_cleanErrorMessage_keeps_newlines :
    cleanErrorMessage "\x1b[31mboom\x1b[0m\nsecond line" = "boom\nsecond line" ∧
    '\n' ∈ (cleanErrorMessage "boom\nsecond line").data ∧
    cleanErrorMessage "\x1b[31mboom\x1b[0m" = "boom" := by
  refine ⟨by decide, by decide, by decide⟩

/-- C7: a response with status in `[500, 600)` observed on a running
session appends exactly one showstopper labelled `METHOD - URL` whose
message renders the status code and the first 100 characters of the
body (the placeholder when the body read failed); the decimal status
code occurs in the message; statuses outside `[500, 600)` change
nothing. -/
theorem C7_onResponse_5xx (st : SniffState) (status : Nat) (url method : String)
    (bodyRead shot : Option String) (h : st.isMonitoring = true) :
    (500 ≤ status → status < 600 →
      (onResponse st status url method bodyRead shot).showStoppers =
        st.showStoppers ++
          [⟨method ++ " - " ++ url,
            responseError status (bodyRead.getD "[body unreadable]"),
            if st.captureScreenshots then shot else none⟩]) ∧
    (∀ body : String, ∃ l1 l2,
      (responseError status body).data = l1 ++ natDigits status ++ l2) ∧
    (bodyRead = none → bodyRead.getD "[body unreadable]" = "[body unreadable]") ∧
    (status < 500 ∨ 600 ≤ status → onResponse st status url method bodyRead shot = st) := by
  refine ⟨?_, ?_, ?_, ?_⟩
  · intro h1 h2
    simp [onResponse, addShowStopper, h, h1, h2]
  · intro body
    exact ⟨"Status: ".data, " - Body: ".data ++ body.data.take 100 ++ "...".data, by
      simp [responseError]⟩
  · intro hb
    simp [hb]
  · intro hrange
    have : ¬ (500 ≤ status ∧ status < 600) := by omega
    simp [onResponse, this]

/-- C7 witness: a 503 response on a concrete running session. -/
theorem C7_onResponse_5xx_witness :
    ((onResponse runState 503 "https://x.example/api" "GET" none none).showStoppers =
      runState.showStoppers ++
        [⟨"GET" ++ " - " ++ "https://x.example/api",
          responseError 503 ((none : Option String).getD "[body unreadable]"),
          if runState.captureScreenshots then none else none⟩]) ∧
    (∃ l1 l2, (responseError 503 "[body unreadable]").data = l1 ++ natDigits 503 ++ l2) ∧
    ((none : Option String).getD "[body unreadable]" = "[body unreadable]") := by
  have h := C7_onResponse_5xx runState 503 "https://x.example/api" "GET" none none rfl
  exact ⟨h.1 (by decide) (by decide), h.2.1 "[body unreadable]", h.2.2.1 rfl⟩

/-- C8 counterexample: the claim says two consecutive `getResults` calls
with no intervening session mutation yield structurally equal reports —
but `getResults` stamps each report with `new Date().toLocaleString()`,
so two calls observing different clock readings on the very same session
state yield different reports. -/
theorem C8_counterexample :
    getResults (initState 2000 true "t") "2025-01-01, 10:00:00" ≠
      getResults (initState 2000 true "t") "2025-01-01, 10:00:01" := by
  decide

/-- C8 amended: `getResults` is a pure projection of the session state
and the current clock reading: it is callable in any lifecycle state, on
a fresh (never started) session it yields the empty/zeroed report, two
calls at the same clock reading yield structurally equal reports, and
two calls at different readings can differ only in the `timestamp`
field. -/
theorem C8_getResults_pure (st : SniffState) (t1 t2 : String) (th : Int) (cap : Bool)
    (name now : String) :
    ((getResults st t1).reportData.map (fun r => { r with timestamp := "" }) =
      (getResults st t2).reportData.map (fun r => { r with timestamp := "" })) ∧
    (t1 = t2 → getResults st t1 = getResults st t2) ∧
    ((getResults (initState th cap name) now).reportData =
      [⟨now, true, [], th, [], none, none, [], [], name⟩]) := by
  exact ⟨rfl, fun h => by rw [h], rfl⟩

/-- C8 witness: the amended property instantiated at a concrete
session. -/
theorem C8_getResults_pure_witness :
    ((getResults runState "t1").reportData.map (fun r => { r with timestamp := "" }) =
      (getResults runState "t2").reportData.map (fun r => { r with timestamp := "" })) ∧
    (getResults runState "t1" = getResults runState "t1") ∧
    ((getResults (initState 2000 true "t") "now").reportData =
      [⟨"now", true, [], 2000, [], none, none, [], [], "t"⟩]) :=
  ⟨(C8_getResults_pure runState "t1" "t2" 2000 true "t" "now").1,
   (C8_getResults_pure runState "t1" "t1" 2000 true "t" "now").2.1 rfl,
   (C8_getResults_pure runState "t1" "t2" 2000 true "t" "now").2.2⟩

/-- C9: the report's `slowRequests` is the sub-list of recorded request
details with duration strictly above the threshold, sorted by duration
descending, stably: it is a permutation of the filtered list, pairwise
descending, and for every duration value the requests carrying it keep
their original relative order; on durations `[50, 900, 300]` with
threshold `200` the result is the `900` and `300` entries in that
order. -/
theorem C9_slowRequests (st : SniffState) (now : String) :
    ((getResults st now).reportData.map (fun r => r.slowRequests) =
      [sortDesc (st.detailedRequestDurations.filter (fun r => st.slowThreshold < r.duration))]) ∧
    (sortDesc (st.detailedRequestDurations.filter
        (fun r => st.slowThreshold < r.duration))).Perm
      (st.detailedRequestDurations.filter (fun r => st.slowThreshold < r.duration)) ∧
    (sortDesc (st.detailedRequestDurations.filter
        (fun r => st.slowThreshold < r.duration))).Pairwise
      (fun a b => b.duration ≤ a.duration) ∧
    (∀ d : Int,
      (sortDesc (st.detailedRequestDurations.filter
          (fun r => st.slowThreshold < r.duration))).filter (fun x => x.duration == d) =
        (st.detailedRequestDurations.filter
          (fun r => st.slowThreshold < r.duration)).filter (fun x => x.duration == d)) ∧
    ((getResults
        ⟨[], [], [], [], [⟨"a", 50, "GET"⟩, ⟨"b", 900, "GET"⟩, ⟨"c", 300, "GET"⟩],
          [], true, 200, true, "t"⟩ now).reportData.map (fun r => r.slowRequests) =
      [[⟨"b", 900, "GET"⟩, ⟨"c", 300, "GET"⟩]]) :=
  ⟨rfl, sortDesc_perm _, sortDesc_pairwise _, fun d => sortDesc_filter _ d, rfl⟩

/-- C10: `calculateAverage` of the empty list is `null` (not `0`, not
`NaN`); of a non-empty list it is the arithmetic mean (sum over length)
rendered with a dot followed by exactly two decimal digits and no other
dot — a formatted string, not a raw number. -/
theorem C10_calculateAverage (values : List Int) :
    calculateAverage [] = none ∧
    (values ≠ [] → ∃ p d1 d2,
      calculateAverage values = some ⟨p ++ '.' :: [d1, d2]⟩ ∧
      (⟨p ++ '.' :: [d1, d2]⟩ : String) =
        toFixed2 ((values.sum : ℚ) / (values.length : ℚ)) ∧
      d1.isDigit = true ∧ d2.isDigit = true ∧ '.' ∉ p) := by
  refine ⟨rfl, ?_⟩
  intro hne
  obtain ⟨p, d1, d2, heq, h1, h2, hp⟩ := toFixed2Data_shape ((values.sum : ℚ) / (values.length : ℚ))
  refine ⟨p, d1, d2, ?_, ?_, h1, h2, hp⟩
  · have hlen : values.length ≠ 0 := fun h => hne (List.length_eq_zero.mp h)
    simp only [calculateAverage, if_neg hlen, toFixed2, heq]
  · simp only [toFixed2, heq]

/-- C10 witness: a concrete non-empty list. -/
theorem C10_calculateAverage_witness :
    calculateAverage [] = none ∧
    (∃ p d1 d2,
      calculateAverage [1, 2] = some ⟨p ++ '.' :: [d1, d2]⟩ ∧
      (⟨p ++ '.' :: [d1, d2]⟩ : String) =
        toFixed2 ((([1, 2] : List Int).sum : ℚ) / (([1, 2] : List Int).length : ℚ)) ∧
      d1.isDigit = true ∧ d2.isDigit = true ∧ '.' ∉ p) :=
  ⟨(C10_calculateAverage [1, 2]).1, (C10_calculateAverage [1, 2]).2 (by decide)⟩

end PwSniff
